import Mathlib

/-!
# Verification of the multi-agent content pipeline

Shallow embedding of the pipeline orchestrator of
`multi-agent-content-pipeline` (directory `python-agents/`): the
workflow state threaded through the LangGraph graph (`graph.py`), the
four agent stages (`agents/researcher.py`, `agents/writer.py`,
`agents/fact_checker.py`, `agents/polisher.py`), the conditional
routing function `should_continue_to_polish`, and the HTTP entry point
`generate_content` (`main.py`).

Modelling conventions:
* Python dict fields accessed with `state.get(key, default)` become
  `Option` fields read with `Option.getD`; a `none` field models an
  absent key.
* Calls into external collaborators (the OpenAI chat client, SerpAPI)
  are modelled by explicit oracle parameters: `Except String String`
  for a text-generation call (`.error e` models a raised exception with
  message `e`, `.ok s` a successful response whose message content is
  `s`), and `Option LLMVerdict` for the fact-checking call (`none`
  models a raised exception or unparsable JSON, which the source maps
  to one and the same fallback result).
* Logging / observability side effects (Supabase inserts, `print`) are
  pure no-ops in the source's data flow and are omitted.
* The `run` and `run_async` variants of every agent compute the same
  state update (they differ only in prompt text and in how the
  collaborator is awaited); the embedding covers both.
-/

/-! ## Python string primitives

Executable models of the Python string operations the pipeline uses,
written over `List Char` so that they reduce inside the kernel.
`Char.isWhitespace` covers the space, tab, CR and LF characters; the
pipeline's strings never contain the rarer characters (`\x0b`,
`\x0c`, unicode spaces) on which Python's `str.strip` is wider. -/

/-- Python `s.strip()`: drop leading and trailing whitespace. -/
def pyStrip (s : String) : String :=
  ⟨((s.data.dropWhile Char.isWhitespace).reverse.dropWhile Char.isWhitespace).reverse⟩

/-- Python `s.lower()` (over the ASCII range the pipeline uses). -/
def pyLower (s : String) : String :=
  ⟨s.data.map Char.toLower⟩

/-- Python `s[:n]`: the first `n` characters. -/
def pyTake (n : Nat) (s : String) : String :=
  ⟨s.data.take n⟩

/-- Python `s.startswith(p)`. -/
def pyStartsWith (s p : String) : Bool :=
  p.data.isPrefixOf s.data

/-- Helper for `pyContains`: is `p` a prefix of some suffix of `s`? -/
def listInfix (p s : List Char) : Bool :=
  p.isPrefixOf s ||
    match s with
    | [] => false
    | _ :: rest => listInfix p rest

/-- Python `p in s` (substring containment). -/
def pyContains (s p : String) : Bool :=
  listInfix p.data s.data

/-- Python `sep.join(xs)`. -/
def pyJoin (sep : String) : List String → String
  | [] => ""
  | [s] => s
  | s :: rest => s ++ sep ++ pyJoin sep rest

/-- Python `s.split('\n')` (on the single newline character). -/
def pySplitLinesAux (cur : List Char) : List Char → List String
  | [] => [⟨cur.reverse⟩]
  | c :: cs =>
    if c = '\n' then ⟨cur.reverse⟩ :: pySplitLinesAux [] cs
    else pySplitLinesAux (c :: cur) cs

/-- Python `s.split('\n')`. -/
def pySplitLines (s : String) : List String :=
  pySplitLinesAux [] s.data

/-- Python `len(s.split())`: the number of maximal whitespace-free
runs. -/
def pyWordCount (s : String) : Nat :=
  ((s.data.splitOnP Char.isWhitespace).filter (· ≠ [])).length

example : pyStrip "  a b \n" = "a b" := by decide
example : pyLower "PaSS" = "pass" := by decide
example : pyTake 3 "abcdef" = "abc" := by decide
example : pyStartsWith "please: x" "please:" = true := by decide
example : pyContains "abcd" "bc" = true := by decide
example : pyJoin "\n" ["a", "b"] = "a\nb" := by decide
example : pySplitLines "a\nb\n" = ["a", "b", ""] := by decide
example : pyWordCount " a  bb " = 2 := by decide

/-- One organic search result as consumed by
`ResearchAgent._extract_research_data` (`researcher.py`). -/
structure OrganicResult where
  title : String
  snippet : String
  link : String
deriving Repr, DecidableEq

/-- The `answer_box` part of a SerpAPI response (`researcher.py` lines
117-127); `none` fields model absent keys. -/
structure AnswerBox where
  answer : Option String
  snippet : Option String
deriving Repr, DecidableEq

/-- The parts of a raw SerpAPI search response that
`_extract_research_data` reads. -/
structure SearchResults where
  organic_results : List OrganicResult
  answer_box : Option AnswerBox
deriving Repr, DecidableEq

/-- A structured research finding (`researcher.py` lines 100-105). -/
structure Finding where
  title : String
  snippet : String
  source : String
deriving Repr, DecidableEq

/-- The `research_data` dict built by `ResearchAgent.run`
(`researcher.py` lines 129-135 and 204-206).  The `prd` field is never
set by the researcher but `WriterAgent._extract_prd` probes for it, so
it is kept as an optional key. -/
structure ResearchData where
  findings : List Finding
  sources : List Finding
  key_points : List String
  total_results : Nat
  topic : String
  search_successful : Bool
  prd : Option String := none
deriving Repr, DecidableEq

/-- The `metadata` dict written by `PolisherAgent.run`
(`polisher.py` lines 342-346). -/
structure Metadata where
  word_count : Nat
  style : String
  status : String
deriving Repr, DecidableEq

/-- The LangGraph `WorkflowState` (`graph.py` lines 9-21), as the dict
it is at runtime: every field optional, `none` modelling an absent
key. -/
structure WorkflowState where
  prd : Option String := none
  topic : Option String := none
  target_length : Option Nat := none
  style : Option String := none
  post_id : Option Int := none
  research_data : Option ResearchData := none
  draft_content : Option String := none
  fact_checked_content : Option String := none
  fact_check_status : Option String := none
  fact_check_iterations : Option Nat := none
  final_content : Option String := none
  metadata : Option Metadata := none
deriving Repr, DecidableEq

/-- The two labels returned by the conditional edge function
(`graph.py` line 24). -/
inductive Route where
  | polish
  | write
deriving Repr, DecidableEq

/-- `should_continue_to_polish` (`graph.py` lines 24-46): routes to
`polish` on a `"pass"` status, or once the iteration counter has
reached `max_iterations = 3`; otherwise back to `write`. Absent
`fact_check_status` defaults to `"fail"`, absent
`fact_check_iterations` to `0`, exactly as the source's
`state.get(...)` calls do. -/
def should_continue_to_polish (state : WorkflowState) : Route :=
  let status := state.fact_check_status.getD "fail"
  let iterations := state.fact_check_iterations.getD 0
  let max_iterations := 3
  if status = "pass" then
    Route.polish
  else if iterations ≥ max_iterations then
    Route.polish
  else
    Route.write

/-- The JSON object the fact-checking collaborator returns on a
successful, parsable call (`fact_checker.py` lines 142-154):
`result.get("status", "fail")` and `result.get("corrected_content",
draft_content)`, with `none` modelling an absent key. The `issues`
list is observability-only and omitted. -/
structure LLMVerdict where
  status : Option String
  corrected_content : Option String
deriving Repr, DecidableEq

/-- `FactCheckerAgent._fact_check_content` (`fact_checker.py` lines
51-169), returning the `(fact_checked_content, status)` pair.
`clientAvailable = false` models `self.client` being `None` (lines
62-64): the source then returns the draft with status `"pass"`.
`llm = none` models the API call raising or the response failing JSON
parsing (lines 161-169): both handlers return `(draft_content,
"fail")`.  On a parsed response the status is lowercased and coerced
to `"fail"` when outside `{"pass", "fail"}` (lines 144-146), and empty
/ whitespace-only / `"N/A"` corrected content falls back to the draft
(lines 148-152). -/
def factCheckContent (clientAvailable : Bool) (llm : Option LLMVerdict)
    (draft_content : String) : String × String :=
  if ¬ clientAvailable then
    (draft_content, "pass")
  else
    match llm with
    | none => (draft_content, "fail")
    | some result =>
      let status0 := pyLower (result.status.getD "fail")
      let status := if status0 = "pass" ∨ status0 = "fail" then status0 else "fail"
      let c0 := result.corrected_content.getD draft_content
      let fact_checked_content :=
        if c0 = "" ∨ pyStrip c0 = "" ∨ c0 = "N/A" then draft_content else c0
      (fact_checked_content, status)

/-- `FactCheckerAgent.run` / `run_async` (`fact_checker.py` lines
364-411 and 413-470): fact-check the draft, then write
`fact_checked_content`, `fact_check_status`, and the unconditionally
incremented `fact_check_iterations` back into the state. -/
def FactCheckerAgent.run (clientAvailable : Bool) (llm : Option LLMVerdict)
    (state : WorkflowState) : WorkflowState :=
  let draft_content := state.draft_content.getD ""
  let current_iterations := state.fact_check_iterations.getD 0
  let result := factCheckContent clientAvailable llm draft_content
  let new_iterations := current_iterations + 1
  { state with
      fact_checked_content := some result.1
      fact_check_status := some result.2
      fact_check_iterations := some new_iterations }

/-- `ResearchAgent._extract_research_data` (`researcher.py` lines
69-135), applied to the outcome of `_search_serpapi` (lines 35-67):
`search = .error e` models the SerpAPI call raising (the source
catches it and returns a `success = False` response, which this
function maps to empty findings).  On success, results with both a
truthy title and snippet yield a finding, a source and a key point
(the first 200 characters of the snippet); a truthy answer box
prepends a direct-answer finding and key point. -/
def extractResearchData (search : Except String SearchResults) : ResearchData :=
  match search with
  | .error _ =>
    { findings := [], sources := [], key_points := [], total_results := 0,
      topic := "", search_successful := false }
  | .ok results =>
    let organic := results.organic_results.take 10
    let good := organic.filter (fun r => r.title ≠ "" ∧ r.snippet ≠ "")
    let findings := good.map (fun r =>
      { title := r.title, snippet := r.snippet, source := r.link : Finding })
    let sources := good.map (fun r =>
      { title := r.title, snippet := r.snippet, source := r.link : Finding })
    let key_points := good.map (fun r => pyTake 200 r.snippet)
    let withAnswer :=
      match results.answer_box with
      | none => (findings, key_points)
      | some ab =>
        let answer_text :=
          if ab.answer.getD "" ≠ "" then ab.answer.getD "" else ab.snippet.getD ""
        if answer_text ≠ "" then
          ({ title := "Direct Answer", snippet := answer_text,
             source := "answer_box" : Finding } :: findings,
           answer_text :: key_points)
        else (findings, key_points)
    { findings := withAnswer.1, sources := sources, key_points := withAnswer.2,
      total_results := results.organic_results.length,
      topic := "", search_successful := true }

/-- `ResearchAgent.run` / `run_async` (`researcher.py` lines 181-222
and 224-279): raise `ValueError("Topic is required for research")`
when the topic is empty or absent (modelled as `Except.error` with the
exception message), otherwise store the structured research data
(stamped with the topic and the search-success flag) into the state. -/
def ResearchAgent.run (search : Except String SearchResults)
    (state : WorkflowState) : Except String WorkflowState :=
  let topic := state.topic.getD ""
  if topic = "" then
    Except.error "Topic is required for research"
  else
    let rd := extractResearchData search
    let rd := { rd with
                  topic := topic
                  search_successful := match search with | .ok _ => true | .error _ => false }
    Except.ok { state with research_data := some rd }

/-- `WriterAgent._extract_prd` (`writer.py` lines 49-84): the `prd`
field if truthy, else `research_data["prd"]` if truthy, else a context
built from the first 5 key points (or, when there are none, the
snippets of the first 3 findings), else the fixed placeholder. -/
def extract_prd (state : WorkflowState) : String :=
  let prd := state.prd.getD ""
  if prd ≠ "" then prd
  else
    let research_data := state.research_data
    let prd2 := (research_data.bind (·.prd)).getD ""
    if prd2 ≠ "" then prd2
    else
      let key_points : List String := (research_data.map (·.key_points)).getD []
      let findings : List Finding := (research_data.map (·.findings)).getD []
      let prd_context :=
        if key_points ≠ [] then pyJoin "\n" (key_points.take 5)
        else if findings ≠ [] then pyJoin "\n" ((findings.take 3).map (·.snippet))
        else ""
      if prd_context ≠ "" then prd_context else "No PRD or research data provided"

/-- The writer's fallback draft when the OpenAI client is unavailable
(`writer.py` line 102 / line 174). -/
def writerFallbackUnavailable (topic prd : String) : String :=
  "# " ++ topic ++ "\n\n[Blog post draft based on PRD]\n\nPRD Content:\n"
    ++ pyTake 500 prd ++ "..."

/-- The writer's fallback draft when the generation call raises with
message `errMsg` (`writer.py` line 156 / line 234). -/
def writerFallbackError (topic errMsg prd : String) : String :=
  "# " ++ topic ++ "\n\n[Error generating content: " ++ errMsg ++ "]\n\nPRD:\n"
    ++ pyTake 500 prd

/-- `WriterAgent._generate_blog_post` (`writer.py` lines 86-156):
unavailable client ⇒ templated skeleton; raised generation call ⇒
error fallback; successful call ⇒ the stripped message content. -/
def WriterAgent.generateBlogPost (clientAvailable : Bool) (gen : Except String String)
    (prd topic : String) : String :=
  if ¬ clientAvailable then
    writerFallbackUnavailable topic prd
  else
    match gen with
    | .ok draft_content => pyStrip draft_content
    | .error e => writerFallbackError topic e prd

/-- `WriterAgent.run` / `run_async` (`writer.py` lines 280-323 and
325-377): extract the PRD and store the generated draft. -/
def WriterAgent.run (clientAvailable : Bool) (gen : Except String String)
    (state : WorkflowState) : WorkflowState :=
  let topic := state.topic.getD ""
  let prd := extract_prd state
  let draft_content := WriterAgent.generateBlogPost clientAvailable gen prd topic
  { state with draft_content := some draft_content }

/-- The instruction markers of `PolisherAgent._polish_content`
(`polisher.py` lines 106-120). -/
def instruction_markers : List String :=
  ["please:", "instructions:", "return the polished", "do not include",
   "improve readability", "enhance the", "fix any grammar", "optimize sentence",
   "ensure the content", "make the introduction", "strengthen the conclusion",
   "ensure consistent formatting", "maintain all factual"]

/-- The condition under which the cleaning loop of `_polish_content`
(`polisher.py` lines 122-137) breaks at line index `i` of `n` lines
and drops the rest: one of the marker patterns fires on the lowercased
stripped line AND the line sits in the last 30% of the content.  The
source's float test `i > len(lines) * 0.7` is embedded as the exact
rational comparison `10 * i > 7 * n`, which agrees with the float test
for every realistic line count. -/
def polishStopAt (n i : Nat) (line : String) : Bool :=
  let line_lower := pyLower (pyStrip line)
  (pyStartsWith line_lower "please:" ||
    (pyStartsWith line_lower "1." &&
      instruction_markers.any (fun m => pyContains line_lower m)) ||
    (decide (10 * i > 7 * n) &&
      (instruction_markers.take 3).any (fun m => pyContains line_lower m)))
  && decide (10 * i > 7 * n)

/-- The line-accumulating loop of `_polish_content`: keep lines until
the first one where `polishStopAt` fires, drop it and everything
after. -/
def polishCleanAux (n : Nat) : Nat → List String → List String
  | _, [] => []
  | i, line :: rest =>
    if polishStopAt n i line then []
    else line :: polishCleanAux n (i + 1) rest

/-- The post-processing `_polish_content` applies to a successful
generation response (`polisher.py` lines 97-140): split into lines,
drop a trailing instruction-like block, re-join and strip. -/
def polishClean (raw : String) : String :=
  let lines := pySplitLines raw
  pyStrip (pyJoin "\n" (polishCleanAux lines.length 0 lines))

/-- `PolisherAgent._polish_content` (`polisher.py` lines 49-144):
unavailable client (lines 61-63) or a raised generation call (lines
141-144) return the input content unchanged; a successful call returns
the cleaned response. -/
def PolisherAgent.polishContent (clientAvailable : Bool) (gen : Except String String)
    (content : String) : String :=
  if ¬ clientAvailable then
    content
  else
    match gen with
    | .ok polished_content => polishClean polished_content
    | .error _ => content

/-- `PolisherAgent.run` / `run_async` (`polisher.py` lines 294-348 and
350-418): select `fact_checked_content` when truthy, stripped-truthy
and not `"N/A"`, else `draft_content` (lines 316-320, the second guard
re-selecting `draft_content` included), polish it, and store
`final_content` plus the completion metadata. -/
def PolisherAgent.run (clientAvailable : Bool) (gen : Except String String)
    (state : WorkflowState) : WorkflowState :=
  let fact_checked_content := state.fact_checked_content.getD ""
  let draft_content := state.draft_content.getD ""
  let style := state.style.getD "professional"
  let content_to_polish :=
    if fact_checked_content ≠ "" ∧ pyStrip fact_checked_content ≠ ""
        ∧ fact_checked_content ≠ "N/A"
    then fact_checked_content else draft_content
  let content_to_polish :=
    if content_to_polish = "" ∨ pyStrip content_to_polish = "" ∨ content_to_polish = "N/A"
    then draft_content else content_to_polish
  let final_content := PolisherAgent.polishContent clientAvailable gen content_to_polish
  let word_count := if final_content ≠ "" then pyWordCount final_content else 0
  { state with
      final_content := some final_content
      metadata := some { word_count := word_count, style := style, status := "completed" } }

example : should_continue_to_polish { fact_check_status := some "pass" } = Route.polish := by decide
example : should_continue_to_polish { fact_check_iterations := some 3 } = Route.polish := by decide
example : should_continue_to_polish { fact_check_iterations := some 2 } = Route.write := by decide
example : factCheckContent false none "d" = ("d", "pass") := by decide
example : factCheckContent true none "d" = ("d", "fail") := by decide
example : factCheckContent true (some { status := some "PASS", corrected_content := some "c" }) "d"
    = ("c", "pass") := by decide
example : factCheckContent true (some { status := some "maybe", corrected_content := some "  " }) "d"
    = ("d", "fail") := by decide

/-! ## The orchestrator (`graph.py` + `main.py`)

`create_workflow` / `create_workflow_async` wire the graph
`research → write → fact_check → (polish | write) → END`, with
`should_continue_to_polish` as the conditional edge after `fact_check`
mapping `"polish"` to the polisher node and `"write"` back to the
writer node (not the researcher).  The loop below is that cycle.  It
is written with an explicit recursion budget (`fuel`) so that it stays
kernel-computable; `loop_total` proves the budget `3` is never
exhausted, so the budgeted function's `some` value is exactly the
state LangGraph hands to the polisher. -/

/-- The external collaborators of one job: the SerpAPI search outcome,
the per-agent OpenAI client availability (`self.client is not None`),
and the outcome of each generation call.  `writerGen k` / `fcGen k` is
the outcome of the `k`-th (0-based) call made by the writer /
fact-checker as the graph loops. -/
structure Collaborators where
  search : Except String SearchResults
  writerClient : Bool
  writerGen : Nat → Except String String
  fcClient : Bool
  fcGen : Nat → Option LLMVerdict
  polisherClient : Bool
  polishGen : Except String String

/-- Result of the write/fact-check cycle: the state at the moment the
conditional edge routes to `polish`, the number of executions of the
`write` node, and the number of `"fail"` verdicts produced by the
`fact_check` node. -/
structure LoopResult where
  state : WorkflowState
  writes : Nat
  fails : Nat
deriving Repr, DecidableEq

/-- The `write → fact_check → (write | polish)` cycle of the compiled
graph, with a recursion budget.  `writes` and `fails` are the counts
accumulated so far; `none` means the budget ran out (proved
unreachable for budget 3 in `loop_total`). -/
def writeFactCheckLoop (env : Collaborators) :
    Nat → WorkflowState → Nat → Nat → Option LoopResult
  | 0, _, _, _ => none
  | fuel + 1, state, writes, fails =>
    let s2 := FactCheckerAgent.run env.fcClient (env.fcGen writes)
      (WriterAgent.run env.writerClient (env.writerGen writes) state)
    let fails' := if s2.fact_check_status = some "pass" then fails else fails + 1
    match should_continue_to_polish s2 with
    | Route.polish => some { state := s2, writes := writes + 1, fails := fails' }
    | Route.write => writeFactCheckLoop env fuel s2 (writes + 1) fails'

/-- One whole job as compiled by `create_workflow` /
`create_workflow_async` (`graph.py` lines 49-135): research, then the
write/fact-check cycle, then polish.  A raised `ValueError` from the
researcher propagates out (`Except.error`); the `"unreachable"` branch
is the fuel artifact shown impossible by `loop_total`. -/
def runPipeline (env : Collaborators) (state : WorkflowState) :
    Except String LoopResult :=
  match ResearchAgent.run env.search state with
  | Except.error e => Except.error e
  | Except.ok s1 =>
    match writeFactCheckLoop env 3 s1 0 0 with
    | none => Except.error "unreachable: retry budget exhausted"
    | some r =>
      Except.ok { r with
        state := PolisherAgent.run env.polisherClient env.polishGen r.state }

/-- The body of a `/generate` request (`main.py` lines 38-43). -/
structure ContentRequest where
  prd : String
  topic : String
  target_length : Option Nat := none
  style : Option String := none
deriving Repr, DecidableEq

/-- The response model (`main.py` lines 45-48). -/
structure ContentResponse where
  content : String
  status : String
  metadata : Option Metadata
deriving Repr, DecidableEq

/-- The initial workflow state built by `generate_content` (`main.py`
lines 94-101): `target_length or 1000` and `style or "professional"`
follow Python truthiness (`None`, `0` and `""` all fall back), the
iteration counter starts at 0, and the remaining keys are absent.
`post_id` is `None` here (no persistence collaborator is modelled). -/
def initialWorkflowState (request : ContentRequest) : WorkflowState :=
  { prd := some request.prd
    topic := some request.topic
    target_length := some (match request.target_length with
      | some n => if n = 0 then 1000 else n
      | none => 1000)
    style := some (match request.style with
      | some s => if s = "" then "professional" else s
      | none => "professional")
    post_id := none
    fact_check_iterations := some 0 }

/-- `generate_content` (`main.py` lines 61-133): run the workflow and
answer `status = "success"` with `result.get("final_content", "")`,
or, when an exception escapes the workflow, `status = "error: <msg>"`
with empty content.  The Supabase post bookkeeping (lines 67-91 and
107-121) never alters the response and is omitted. -/
def generate_content (env : Collaborators) (request : ContentRequest) : ContentResponse :=
  match runPipeline env (initialWorkflowState request) with
  | Except.error e =>
    { content := "", status := "error: " ++ e, metadata := none }
  | Except.ok result =>
    { content := result.state.final_content.getD ""
      status := "success"
      metadata := result.state.metadata }

/-- A fully degraded collaborator set: search fails, no OpenAI client
anywhere. -/
def envAllDown : Collaborators :=
  { search := Except.error "SerpAPI down"
    writerClient := false
    writerGen := fun _ => Except.error "down"
    fcClient := false
    fcGen := fun _ => none
    polisherClient := false
    polishGen := Except.error "down" }

/-- Collaborators where only the writer's OpenAI client is up, and its
generation call succeeds with an empty message. -/
def envBlankWriter : Collaborators :=
  { search := Except.error "SerpAPI down"
    writerClient := true
    writerGen := fun _ => Except.ok ""
    fcClient := false
    fcGen := fun _ => none
    polisherClient := false
    polishGen := Except.error "down" }

example :
    (generate_content envAllDown { prd := "p", topic := "t" }).status = "success" := by decide
example :
    (generate_content envAllDown { prd := "p", topic := "" }).status
      = "error: Topic is required for research" := by decide

/-! ## Basic stage lemmas -/

/-- The writer leaves the iteration counter untouched. -/
theorem writer_preserves_iterations (avail : Bool) (gen : Except String String)
    (s : WorkflowState) :
    (WriterAgent.run avail gen s).fact_check_iterations = s.fact_check_iterations := rfl

/-- The polisher leaves the iteration counter untouched. -/
theorem polisher_preserves_iterations (avail : Bool) (gen : Except String String)
    (s : WorkflowState) :
    (PolisherAgent.run avail gen s).fact_check_iterations = s.fact_check_iterations := rfl

/-- The polisher leaves the fact-check status untouched. -/
theorem polisher_preserves_status (avail : Bool) (gen : Except String String)
    (s : WorkflowState) :
    (PolisherAgent.run avail gen s).fact_check_status = s.fact_check_status := rfl

/-- The fact-checker writes back exactly the incremented counter. -/
theorem fc_run_iterations (avail : Bool) (llm : Option LLMVerdict) (s : WorkflowState) :
    (FactCheckerAgent.run avail llm s).fact_check_iterations
      = some (s.fact_check_iterations.getD 0 + 1) := rfl

/-- The fact-checker stores the computed verdict pair. -/
theorem fc_run_fields (avail : Bool) (llm : Option LLMVerdict) (s : WorkflowState) :
    (FactCheckerAgent.run avail llm s).fact_checked_content
        = some (factCheckContent avail llm (s.draft_content.getD "")).1
      ∧ (FactCheckerAgent.run avail llm s).fact_check_status
        = some (factCheckContent avail llm (s.draft_content.getD "")).2
      ∧ (FactCheckerAgent.run avail llm s).draft_content = s.draft_content :=
  ⟨rfl, rfl, rfl⟩


/-- If the edge routes back to `write`, the counter is still below the
bound. -/
theorem route_write_iter_lt (s : WorkflowState)
    (h : should_continue_to_polish s = Route.write) :
    s.fact_check_iterations.getD 0 < 3 := by
  unfold should_continue_to_polish at h
  dsimp only at h
  split_ifs at h with h1 h2
  omega

/-- If the edge routes back to `write`, the stored status was not a
pass. -/
theorem route_write_status_ne_pass (s : WorkflowState)
    (h : should_continue_to_polish s = Route.write) :
    s.fact_check_status ≠ some "pass" := by
  unfold should_continue_to_polish at h
  dsimp only at h
  split_ifs at h with h1 h2
  intro hc
  exact h1 (by simp [hc])

/-- Once the counter has reached 3, the edge can only route to
`polish`. -/
theorem route_polish_of_iter_ge (s : WorkflowState)
    (h : 3 ≤ s.fact_check_iterations.getD 0) :
    should_continue_to_polish s = Route.polish := by
  unfold should_continue_to_polish
  dsimp only
  split_ifs with h1 h2 <;> first | rfl | omega

/-! ## Loop invariants -/

/-- Core invariant of the write/fact-check cycle: a `some` result did
`k ≥ 1` writes within budget, the counter advanced by exactly `k`
(one increment per fact-check execution), the fail count advanced by
`k` minus one exactly when the last verdict passed, and the loop
exited through the `polish` route. -/
theorem writeFactCheckLoop_spec (env : Collaborators) :
    ∀ (fuel : Nat) (s : WorkflowState) (w f : Nat) (r : LoopResult),
      writeFactCheckLoop env fuel s w f = some r →
      ∃ k, 1 ≤ k ∧ k ≤ fuel ∧ r.writes = w + k ∧
        r.state.fact_check_iterations = some (s.fact_check_iterations.getD 0 + k) ∧
        r.fails + (if r.state.fact_check_status = some "pass" then 1 else 0) = f + k ∧
        should_continue_to_polish r.state = Route.polish := by
  intro fuel
  induction fuel with
  | zero =>
    intro s w f r h
    simp [writeFactCheckLoop] at h
  | succ fuel ih =>
    intro s w f r h
    rw [writeFactCheckLoop] at h
    split at h
    case h_1 heq =>
      cases h
      refine ⟨1, le_refl 1, by omega, rfl, rfl, ?_, heq⟩
      dsimp only
      split_ifs <;> omega
    case h_2 heq =>
      obtain ⟨k, hk1, hkf, hw, hiter, hfail, hroute⟩ := ih _ _ _ _ h
      have hnp := route_write_status_ne_pass _ heq
      rw [if_neg hnp] at hfail
      refine ⟨k + 1, by omega, by omega, by omega, ?_, by omega, hroute⟩
      rw [hiter, fc_run_iterations, writer_preserves_iterations]
      show some (Option.getD (some (s.fact_check_iterations.getD 0 + 1)) 0 + k) = _
      rw [Option.getD_some]
      congr 1
      omega

/-- The cycle never exhausts a budget that, together with the current
counter, covers the bound: with the counter incremented on every
fact-check and the `write` route requiring it to still be below 3,
at most `3 - counter` (and at least one) rounds happen. -/
theorem writeFactCheckLoop_total (env : Collaborators) :
    ∀ (fuel : Nat) (s : WorkflowState) (w f : Nat),
      1 ≤ fuel → 3 ≤ fuel + s.fact_check_iterations.getD 0 →
      ∃ r, writeFactCheckLoop env fuel s w f = some r := by
  intro fuel
  induction fuel with
  | zero => omega
  | succ fuel ih =>
    intro s w f _ hge
    rw [writeFactCheckLoop]
    split
    case h_1 => exact ⟨_, rfl⟩
    case h_2 heq =>
      have hlt := route_write_iter_lt _ heq
      rw [fc_run_iterations, writer_preserves_iterations, Option.getD_some] at hlt
      apply ih
      · omega
      · rw [fc_run_iterations, writer_preserves_iterations, Option.getD_some]
        omega

/-! ## Non-emptiness lemmas -/

/-- A string is `""` exactly when its character list is empty. -/
theorem string_eq_empty_iff (s : String) : s = "" ↔ s.data = [] := by
  constructor
  · intro h
    rw [h]
  · intro h
    cases s with
    | mk l =>
      have hl : l = [] := h
      subst hl
      rfl

/-- Appending to a non-empty string cannot give `""`. -/
theorem append_ne_empty_left (s t : String) (h : s ≠ "") : s ++ t ≠ "" := by
  intro he
  apply h
  rw [string_eq_empty_iff] at he ⊢
  have hd : s.data ++ t.data = [] := he
  exact (List.append_eq_nil.mp hd).1

/-- The unavailable-client fallback draft is never empty. -/
theorem writerFallbackUnavailable_ne_empty (topic prd : String) :
    writerFallbackUnavailable topic prd ≠ "" := by
  unfold writerFallbackUnavailable
  repeat apply append_ne_empty_left
  decide

/-- The raised-generation fallback draft is never empty. -/
theorem writerFallbackError_ne_empty (topic errMsg prd : String) :
    writerFallbackError topic errMsg prd ≠ "" := by
  unfold writerFallbackError
  repeat apply append_ne_empty_left
  decide

/-- The writer produces a non-empty draft provided that a successful
generation call yields text that is non-empty after stripping. -/
theorem writer_output_nonempty (avail : Bool) (gen : Except String String)
    (prd topic : String) (hok : ∀ t, gen = Except.ok t → pyStrip t ≠ "") :
    WriterAgent.generateBlogPost avail gen prd topic ≠ "" := by
  cases avail with
  | false => exact writerFallbackUnavailable_ne_empty topic prd
  | true =>
    cases gen with
    | ok t => exact hok t rfl
    | error e => exact writerFallbackError_ne_empty topic e prd

/-- The fact-checker never replaces a non-empty draft by empty
content. -/
theorem factCheckContent_fst_ne_empty (avail : Bool) (llm : Option LLMVerdict)
    (d : String) (hd : d ≠ "") : (factCheckContent avail llm d).1 ≠ "" := by
  cases avail with
  | false => exact hd
  | true =>
    cases llm with
    | none => exact hd
    | some result =>
      show (if (result.corrected_content.getD d) = ""
              ∨ pyStrip (result.corrected_content.getD d) = ""
              ∨ (result.corrected_content.getD d) = "N/A"
            then d else result.corrected_content.getD d) ≠ ""
      split_ifs with h2
      · exact hd
      · rw [not_or, not_or] at h2
        exact h2.1

/-- Under the assumption that every successful writer-generation call
yields non-blank text, the state handed to the polisher carries a
non-empty draft and non-empty fact-checked content. -/
theorem writeFactCheckLoop_nonempty (env : Collaborators)
    (hw : ∀ k t, env.writerGen k = Except.ok t → pyStrip t ≠ "") :
    ∀ (fuel : Nat) (s : WorkflowState) (w f : Nat) (r : LoopResult),
      writeFactCheckLoop env fuel s w f = some r →
      r.state.draft_content.getD "" ≠ "" ∧ r.state.fact_checked_content.getD "" ≠ "" := by
  intro fuel
  induction fuel with
  | zero =>
    intro s w f r h
    simp [writeFactCheckLoop] at h
  | succ fuel ih =>
    intro s w f r h
    rw [writeFactCheckLoop] at h
    split at h
    case h_1 heq =>
      cases h
      refine ⟨?_, ?_⟩
      · exact writer_output_nonempty _ _ _ _ (fun t ht => hw w t ht)
      · exact factCheckContent_fst_ne_empty _ _ _
          (writer_output_nonempty _ _ _ _ (fun t ht => hw w t ht))
    case h_2 heq =>
      exact ih _ _ _ _ h

/-- The researcher: empty (or absent) topic raises, otherwise it only
adds `research_data`. -/
theorem research_run_cases (search : Except String SearchResults) (st : WorkflowState) :
    (st.topic.getD "" = "" →
      ResearchAgent.run search st = Except.error "Topic is required for research") ∧
    (st.topic.getD "" ≠ "" → ∃ s1, ResearchAgent.run search st = Except.ok s1 ∧
      s1.fact_check_iterations = st.fact_check_iterations ∧
      s1.draft_content = st.draft_content ∧
      s1.fact_checked_content = st.fact_checked_content ∧
      s1.prd = st.prd ∧ s1.topic = st.topic) := by
  unfold ResearchAgent.run
  constructor
  · intro h
    rw [if_pos h]
  · intro h
    rw [if_neg h]
    exact ⟨_, rfl, rfl, rfl, rfl, rfl, rfl⟩

/-- The polisher's unavailable-client fallback returns the input. -/
theorem polishContent_unavailable (gen : Except String String) (content : String) :
    PolisherAgent.polishContent false gen content = content := rfl

/-- The polisher's raised-generation fallback returns the input. -/
theorem polishContent_error (e : String) (content : String) :
    PolisherAgent.polishContent true (Except.error e) content = content := rfl

/-- `PolisherAgent.run` stores the polish of the selected upstream
content: `fact_checked_content` when truthy, stripped-truthy and not
`"N/A"`, else `draft_content`; the source's second guard is redundant
given the first. -/
theorem polisher_run_final_content (avail : Bool) (gen : Except String String)
    (state : WorkflowState) :
    (PolisherAgent.run avail gen state).final_content
      = some (PolisherAgent.polishContent avail gen
          (if state.fact_checked_content.getD "" ≠ ""
              ∧ pyStrip (state.fact_checked_content.getD "") ≠ ""
              ∧ state.fact_checked_content.getD "" ≠ "N/A"
            then state.fact_checked_content.getD ""
            else state.draft_content.getD "")) := by
  unfold PolisherAgent.run
  dsimp only
  split_ifs with h1 h2 h3 <;> first | rfl | tauto

/-! ## Claim theorems -/

/-- **C1**: for every collaborator behavior, a job either aborts in
the research stage (empty topic) or completes with between 1 and 3
executions of the write (Draft) stage, the final
`fact_check_iterations` equal to that count (hence never above 3);
and once `fact_check_iterations ≥ 3` the conditional edge after the
fact-check always routes to `polish`, never back to `write`. -/
theorem pipeline_terminates_within_three_drafts (env : Collaborators)
    (req : ContentRequest) (s : WorkflowState)
    (hs : 3 ≤ s.fact_check_iterations.getD 0) :
    (req.topic = "" →
      runPipeline env (initialWorkflowState req)
        = Except.error "Topic is required for research") ∧
    (req.topic ≠ "" → ∃ r, runPipeline env (initialWorkflowState req) = Except.ok r ∧
      1 ≤ r.writes ∧ r.writes ≤ 3 ∧ r.state.fact_check_iterations = some r.writes) ∧
    should_continue_to_polish s = Route.polish := by
  refine ⟨?_, ?_, route_polish_of_iter_ge s hs⟩
  · intro h
    unfold runPipeline
    rw [(research_run_cases env.search _).1 (by simp [initialWorkflowState, h])]
  · intro h
    obtain ⟨s1, hres, hiter, _, _, _, _⟩ :=
      (research_run_cases env.search (initialWorkflowState req)).2
        (by simp [initialWorkflowState, h])
    have hiter0 : s1.fact_check_iterations = some 0 := by
      rw [hiter]
      rfl
    obtain ⟨r0, hloop⟩ := writeFactCheckLoop_total env 3 s1 0 0 (by omega) (by omega)
    obtain ⟨k, hk1, hk3, hwr, hi, hf, hroute⟩ := writeFactCheckLoop_spec env 3 s1 0 0 r0 hloop
    refine ⟨{ r0 with
      state := PolisherAgent.run env.polisherClient env.polishGen r0.state }, ?_, ?_, ?_, ?_⟩
    · unfold runPipeline
      rw [hres]
      dsimp only
      rw [hloop]
    · dsimp only
      omega
    · dsimp only
      omega
    · dsimp only
      rw [polisher_preserves_iterations, hi, hiter0, Option.getD_some, hwr]

/-- Witness for C1 at a concrete degraded environment and a state
whose counter has reached 3. -/
theorem pipeline_terminates_within_three_drafts_witness :
    should_continue_to_polish { fact_check_iterations := some 3 } = Route.polish ∧
    (∃ r, runPipeline envAllDown (initialWorkflowState { prd := "p", topic := "t" })
        = Except.ok r ∧
      1 ≤ r.writes ∧ r.writes ≤ 3 ∧ r.state.fact_check_iterations = some r.writes) := by
  have h := pipeline_terminates_within_three_drafts envAllDown { prd := "p", topic := "t" }
    { fact_check_iterations := some 3 } (by decide)
  exact ⟨h.2.2, h.2.1 (by decide)⟩

/-- **C2**: the conditional edge after the fact-check returns
`polish` iff the status is `"pass"` or the counter is at least 3, and
`write` otherwise; an absent status behaves like `"fail"` and an
absent counter like `0`. -/
theorem route_decision_iff (s : WorkflowState) :
    (should_continue_to_polish s = Route.polish ↔
      s.fact_check_status.getD "fail" = "pass" ∨ 3 ≤ s.fact_check_iterations.getD 0) ∧
    (should_continue_to_polish s = Route.write ↔
      ¬(s.fact_check_status.getD "fail" = "pass" ∨ 3 ≤ s.fact_check_iterations.getD 0)) ∧
    should_continue_to_polish { s with fact_check_status := none }
      = should_continue_to_polish { s with fact_check_status := some "fail" } ∧
    should_continue_to_polish { s with fact_check_iterations := none }
      = should_continue_to_polish { s with fact_check_iterations := some 0 } := by
  refine ⟨?_, ?_, rfl, rfl⟩ <;>
    · unfold should_continue_to_polish
      dsimp only
      split_ifs with h1 h2 <;> simp_all <;> omega

/-- The `polish` route holds exactly on a pass or an exhausted
counter. -/
theorem route_polish_iff (s : WorkflowState) :
    should_continue_to_polish s = Route.polish ↔
      s.fact_check_status.getD "fail" = "pass" ∨ 3 ≤ s.fact_check_iterations.getD 0 := by
  unfold should_continue_to_polish
  dsimp only
  split_ifs with h1 h2 <;> simp_all <;> omega

/-- A `"pass"` default-read forces the field to be `some "pass"`. -/
theorem status_getD_pass (o : Option String) (h : o.getD "fail" = "pass") :
    o = some "pass" := by
  cases o with
  | none => exact absurd h (by decide)
  | some x =>
    rw [Option.getD_some] at h
    rw [h]

/-- **C3, counterexample**: with every collaborator down, the very
first verification passes (the unavailable fact-checker passes the
draft through), yet the completed job ends with
`fact_check_iterations = 1` and zero FAIL verdicts — the counter
counts fact-check executions, not FAIL verdicts, so it is `1`, not
`min 0 3 = 0`, contrary to the claim. -/
theorem iteration_count_counterexample :
    (runPipeline envAllDown (initialWorkflowState { prd := "p", topic := "t" })).toOption.map
        (fun r => (r.state.fact_check_iterations, r.state.fact_check_status, r.fails))
      = some (some 1, some "pass", 0) ∧ (1 : Nat) ≠ min 0 3 :=
  ⟨by decide, by decide⟩

/-- **C3, amended**: the final counter equals the number of verify
(fact-check) executions, i.e. the number of Draft executions.  It
equals the number of FAIL verdicts *plus one* when the job's last
verdict was a pass (in particular a job whose first verification
passes ends with the counter at 1, not 0), and it equals the number
of FAIL verdicts (= 3, the cap) exactly when the job completed by
exhausting the retry bound. -/
theorem iteration_count_equals_verify_executions (env : Collaborators)
    (req : ContentRequest) (r : LoopResult)
    (h : runPipeline env (initialWorkflowState req) = Except.ok r) :
    r.state.fact_check_iterations = some r.writes ∧
    (r.state.fact_check_status = some "pass" → r.writes = r.fails + 1) ∧
    (r.state.fact_check_status ≠ some "pass" → r.writes = 3 ∧ r.fails = 3) := by
  unfold runPipeline at h
  split at h
  case h_1 => exact absurd h (by simp)
  case h_2 s1 heqres =>
    split at h
    case h_1 => exact absurd h (by simp)
    case h_2 r0 heqloop =>
      have hs1 : s1.fact_check_iterations = some 0 := by
        unfold ResearchAgent.run at heqres
        dsimp only at heqres
        split_ifs at heqres with ht
        cases heqres
        rfl
      obtain ⟨k, hk1, hk3, hwr, hi, hf, hroute⟩ :=
        writeFactCheckLoop_spec env 3 s1 0 0 r0 heqloop
      cases h
      have hiter : r0.state.fact_check_iterations = some k := by
        rw [hi, hs1, Option.getD_some, Nat.zero_add]
      refine ⟨?_, ?_, ?_⟩
      · dsimp only
        rw [polisher_preserves_iterations, hiter, hwr, Nat.zero_add]
      · dsimp only
        rw [polisher_preserves_status]
        intro hp
        rw [if_pos hp] at hf
        omega
      · dsimp only
        rw [polisher_preserves_status]
        intro hp
        rw [if_neg hp] at hf
        have h3 : 3 ≤ k := by
          rcases (route_polish_iff r0.state).mp hroute with hcase | hcase
          · exact absurd (status_getD_pass _ hcase) hp
          · rw [hiter, Option.getD_some] at hcase
            exact hcase
        omega

/-- An `Except` whose `toOption` is `some` is that `ok`. -/
theorem except_eq_ok_of_toOption {ε α : Type} (x : Except ε α) (r : α)
    (h : x.toOption = some r) : x = Except.ok r := by
  cases x with
  | error e => exact absurd h (by simp [Except.toOption])
  | ok a =>
    have ha : a = r := by simpa [Except.toOption] using h
    rw [ha]

/-- Witness for C3's amended theorem: the concrete all-down run. -/
theorem iteration_count_equals_verify_executions_witness :
    ∃ r, runPipeline envAllDown (initialWorkflowState { prd := "p", topic := "t" })
        = Except.ok r ∧
      r.state.fact_check_iterations = some r.writes ∧
      (r.state.fact_check_status = some "pass" → r.writes = r.fails + 1) := by
  have hsome : (runPipeline envAllDown
      (initialWorkflowState { prd := "p", topic := "t" })).toOption.isSome = true := by
    decide
  obtain ⟨r, hr⟩ := Option.isSome_iff_exists.mp hsome
  have hok := except_eq_ok_of_toOption _ _ hr
  have h := iteration_count_equals_verify_executions envAllDown
    { prd := "p", topic := "t" } r hok
  exact ⟨r, hok, h.1, h.2.1⟩

/-- **C4, counterexample**: with the fact-checking client unavailable
(a collaborator failure), `_fact_check_content` returns the unmodified
draft with status `"pass"` — it does report PASS on this collaborator
failure, contrary to the claim (which is right only for the
raised-call case). -/
theorem verify_unavailable_reports_pass :
    factCheckContent false none "The draft." = ("The draft.", "pass") ∧
    ("pass" : String) ≠ "fail" :=
  ⟨by decide, by decide⟩

/-- **C4, amended**: when the fact-checking call raises (or its JSON
cannot be parsed), the stage returns FAIL with the unmodified draft;
when the client is simply unavailable, it also returns the unmodified
draft but reports PASS (a degraded pass-through), never dropping the
draft content in either case. -/
theorem verify_failure_behavior (llm : Option LLMVerdict) (d : String) :
    factCheckContent true none d = (d, "fail") ∧
    factCheckContent false llm d = (d, "pass") :=
  ⟨rfl, rfl⟩

/-- **C5, counterexample**: the verify stage can return PASS with
empty content — with no client an empty draft is passed through as
`("", "pass")`, and even an available client passing an empty
corrected version of an empty draft yields `("", "pass")`. -/
theorem verify_empty_pass_counterexample :
    factCheckContent false none "" = ("", "pass") ∧
    factCheckContent true (some { status := some "pass", corrected_content := some "" }) ""
      = ("", "pass") :=
  ⟨by decide, by decide⟩

/-- **C5, amended**: whenever the incoming draft is non-empty, any
result of the verify stage — in particular any PASS — carries
non-empty content, because unusable corrected content falls back to
the draft; only an empty draft can yield empty PASS output. -/
theorem verify_pass_nonempty_given_nonempty_draft (avail : Bool)
    (llm : Option LLMVerdict) (d : String) (hd : d ≠ "") :
    (factCheckContent avail llm d).2 = "pass" → (factCheckContent avail llm d).1 ≠ "" :=
  fun _ => factCheckContent_fst_ne_empty avail llm d hd

/-- Witness for C5's amended theorem. -/
theorem verify_pass_nonempty_given_nonempty_draft_witness :
    ("x" : String) ≠ "" ∧ (factCheckContent false none "x").2 = "pass" ∧
    (factCheckContent false none "x").1 ≠ "" :=
  ⟨by decide, by decide,
    verify_pass_nonempty_given_nonempty_draft false none "x" (by decide) (by decide)⟩

/-- **C7, counterexample**: a successful generation call returning
whitespace is stripped to the empty draft even for a non-empty topic —
the non-emptiness in the claim holds only for the fallback paths. -/
theorem draft_blank_generation_counterexample :
    WriterAgent.generateBlogPost true (Except.ok " ") "some prd" "some topic" = "" ∧
    ("some topic" : String) ≠ "" :=
  ⟨by decide, by decide⟩

/-- **C7, amended**: when the generation client is unavailable the
draft is exactly the deterministic topic/PRD skeleton, when the call
raises it is exactly the deterministic error fallback — both
non-empty for every topic and PRD — and a successful call yields the
stripped response, non-empty whenever the response is non-blank;
`WriterAgent.run` stores that draft in the state. -/
theorem draft_fallback_behavior (prd topic e t : String) (st : WorkflowState)
    (avail : Bool) (gen : Except String String) :
    (WriterAgent.run avail gen st).draft_content
        = some (WriterAgent.generateBlogPost avail gen (extract_prd st) (st.topic.getD "")) ∧
    WriterAgent.generateBlogPost false (Except.ok t) prd topic
        = writerFallbackUnavailable topic prd ∧
    WriterAgent.generateBlogPost false (Except.error e) prd topic
        = writerFallbackUnavailable topic prd ∧
    WriterAgent.generateBlogPost true (Except.error e) prd topic
        = writerFallbackError topic e prd ∧
    WriterAgent.generateBlogPost true (Except.ok t) prd topic = pyStrip t ∧
    writerFallbackUnavailable topic prd ≠ "" ∧
    writerFallbackError topic e prd ≠ "" ∧
    (pyStrip t ≠ "" → WriterAgent.generateBlogPost true (Except.ok t) prd topic ≠ "") :=
  ⟨rfl, rfl, rfl, rfl, rfl, writerFallbackUnavailable_ne_empty topic prd,
    writerFallbackError_ne_empty topic e prd, fun h => h⟩

/-- Witness for C7's amended theorem. -/
theorem draft_fallback_behavior_witness :
    pyStrip "body" ≠ "" ∧
    WriterAgent.generateBlogPost true (Except.ok "body") "p" "t" ≠ "" :=
  ⟨by decide,
    (draft_fallback_behavior "p" "t" "err" "body" {} true (Except.ok "body")).2.2.2.2.2.2.2
      (by decide)⟩

/-- The polisher's successful call stores the cleaned response. -/
theorem polishContent_ok (t content : String) :
    PolisherAgent.polishContent true (Except.ok t) content = polishClean t := rfl

/-- **C8, counterexample**: on a state with no draft and no
fact-checked content and a failing generation collaborator, the
polish stage stores an empty `final_content` — the unconditional
non-emptiness in the claim fails. -/
theorem polish_empty_inputs_counterexample :
    (PolisherAgent.run false (Except.error "down") {}).final_content = some "" := by decide

/-- **C8, amended**: the polish stage selects `verifiedText`
(`fact_checked_content`) when it is non-empty, non-blank and not
`"N/A"`, otherwise `draftText`; when the generation collaborator is
unavailable or raises, `final_content` is exactly that selected
upstream text, unchanged — hence non-empty whenever the draft is
non-empty; an empty result needs both upstream texts unusable. -/
theorem polish_fallback_chain (avail : Bool) (gen : Except String String)
    (state : WorkflowState) :
    ((avail = false ∨ (∃ e, gen = Except.error e)) →
      (PolisherAgent.run avail gen state).final_content
        = some (if state.fact_checked_content.getD "" ≠ ""
                  ∧ pyStrip (state.fact_checked_content.getD "") ≠ ""
                  ∧ state.fact_checked_content.getD "" ≠ "N/A"
                then state.fact_checked_content.getD ""
                else state.draft_content.getD "")) ∧
    (state.draft_content.getD "" ≠ "" → (avail = false ∨ (∃ e, gen = Except.error e)) →
      (PolisherAgent.run avail gen state).final_content.getD "" ≠ "") := by
  have hsel := polisher_run_final_content avail gen state
  have hpc : (avail = false ∨ (∃ e, gen = Except.error e)) →
      ∀ c : String, PolisherAgent.polishContent avail gen c = c := by
    rintro (rfl | ⟨e, rfl⟩) c
    · exact polishContent_unavailable gen c
    · cases avail with
      | false => exact polishContent_unavailable _ c
      | true => exact polishContent_error e c
  constructor
  · intro hfail
    rw [hsel, hpc hfail]
  · intro hd hfail
    rw [hsel, hpc hfail, Option.getD_some]
    split_ifs with hok
    · exact hok.1
    · exact hd

/-- Witness for C8's amended theorem. -/
theorem polish_fallback_chain_witness :
    (({ draft_content := some "D" } : WorkflowState).draft_content.getD "" ≠ "") ∧
    (PolisherAgent.run false (Except.error "x")
        { draft_content := some "D" }).final_content.getD "" ≠ "" := by
  have h := polish_fallback_chain false (Except.error "x") { draft_content := some "D" }
  exact ⟨by decide, h.2 (by decide) (Or.inl rfl)⟩

/-- **C9**: an empty (or absent) topic makes the research stage raise
`ValueError("Topic is required for research")`; the workflow aborts
with that exception, no further stage runs, and the caller receives
an empty-content response whose status carries the reason; a
non-empty topic never triggers this error. -/
theorem empty_topic_aborts (env : Collaborators) (req : ContentRequest)
    (st : WorkflowState) :
    (req.topic = "" →
      runPipeline env (initialWorkflowState req)
          = Except.error "Topic is required for research" ∧
      generate_content env req
        = { content := "", status := "error: Topic is required for research",
            metadata := none }) ∧
    (st.topic.getD "" = "" →
      ResearchAgent.run env.search st = Except.error "Topic is required for research") ∧
    (st.topic.getD "" ≠ "" → ∃ s1, ResearchAgent.run env.search st = Except.ok s1) := by
  refine ⟨?_, (research_run_cases env.search st).1, fun h => ?_⟩
  · intro h
    have h1 := (research_run_cases env.search (initialWorkflowState req)).1
      (by simp [initialWorkflowState, h])
    constructor
    · unfold runPipeline
      rw [h1]
    · unfold generate_content runPipeline
      rw [h1]
      rfl
  · obtain ⟨s1, hs1, _⟩ := (research_run_cases env.search st).2 h
    exact ⟨s1, hs1⟩

/-- Witness for C9. -/
theorem empty_topic_aborts_witness :
    generate_content envAllDown { prd := "p", topic := "" }
      = { content := "", status := "error: Topic is required for research",
          metadata := none } ∧
    (∃ s1, ResearchAgent.run envAllDown.search
        ({ topic := some "t" } : WorkflowState) = Except.ok s1) := by
  have h := empty_topic_aborts envAllDown { prd := "p", topic := "" }
    ({ topic := some "t" } : WorkflowState)
  exact ⟨(h.1 rfl).2, h.2.2 (by decide)⟩

/-- **C10**: every execution of the fact-check stage writes back
exactly `current + 1` — regardless of verdict or collaborator state —
and no other stage (writer, polisher, researcher) changes
`fact_check_iterations`. -/
theorem fact_check_iterations_monotone (avail wAvail : Bool) (llm : Option LLMVerdict)
    (wGen pGen : Except String String) (search : Except String SearchResults)
    (state : WorkflowState) :
    (FactCheckerAgent.run avail llm state).fact_check_iterations
        = some (state.fact_check_iterations.getD 0 + 1) ∧
    (WriterAgent.run wAvail wGen state).fact_check_iterations
        = state.fact_check_iterations ∧
    (PolisherAgent.run wAvail pGen state).fact_check_iterations
        = state.fact_check_iterations ∧
    (∀ s1, ResearchAgent.run search state = Except.ok s1 →
      s1.fact_check_iterations = state.fact_check_iterations) := by
  refine ⟨rfl, rfl, rfl, fun s1 h => ?_⟩
  unfold ResearchAgent.run at h
  dsimp only at h
  split_ifs at h with ht
  cases h
  rfl

/-- Witness for C10. -/
theorem fact_check_iterations_monotone_witness :
    ∃ s1, ResearchAgent.run (Except.error "e") ({ topic := some "t" } : WorkflowState)
        = Except.ok s1 ∧
      s1.fact_check_iterations
        = ({ topic := some "t" } : WorkflowState).fact_check_iterations := by
  have hsome : (ResearchAgent.run (Except.error "e")
      ({ topic := some "t" } : WorkflowState)).toOption.isSome = true := by decide
  obtain ⟨s1, hs1⟩ := Option.isSome_iff_exists.mp hsome
  have hok := except_eq_ok_of_toOption _ _ hs1
  have h := fact_check_iterations_monotone false false none (Except.error "")
    (Except.error "") (Except.error "e") { topic := some "t" }
  exact ⟨s1, hok, h.2.2.2 s1 hok⟩

/-- **C6, counterexample**: with a writer whose generation call
succeeds with an empty message (and the other collaborators down),
the orchestrator answers `status = "success"` with empty content —
`generate_content` performs no emptiness check before reporting
success. -/
theorem empty_success_counterexample :
    (generate_content envBlankWriter { prd := "p", topic := "t" }).status = "success" ∧
    (generate_content envBlankWriter { prd := "p", topic := "t" }).content = "" :=
  ⟨by decide, by decide⟩

/-- **C6, amended**: the caller always receives either the workflow's
final content with `status = "success"`, or empty content with an
explicit `status = "error: <reason>"`; the success content is
non-empty provided every successful writer-generation response is
non-blank and every successful polish-generation response cleans to
non-empty text — in particular whenever those collaborators fail,
the built-in fallbacks keep the content non-empty.  The orchestrator
itself never checks emptiness, so the guarantee comes entirely from
the stages' fallbacks. -/
theorem success_response_characterization (env : Collaborators) (req : ContentRequest)
    (hw : ∀ k t, env.writerGen k = Except.ok t → pyStrip t ≠ "")
    (hp : ∀ t, env.polishGen = Except.ok t → polishClean t ≠ "") :
    (req.topic = "" → generate_content env req
        = { content := "", status := "error: Topic is required for research",
            metadata := none }) ∧
    (req.topic ≠ "" → (generate_content env req).status = "success" ∧
      (generate_content env req).content ≠ "") := by
  constructor
  · intro h
    have h1 := (research_run_cases env.search (initialWorkflowState req)).1
      (by simp [initialWorkflowState, h])
    unfold generate_content runPipeline
    rw [h1]
    rfl
  · intro h
    obtain ⟨s1, hres, _, _, _, _, _⟩ :=
      (research_run_cases env.search (initialWorkflowState req)).2
        (by simp [initialWorkflowState, h])
    obtain ⟨r0, hloop⟩ := writeFactCheckLoop_total env 3 s1 0 0 (by omega) (by omega)
    have hne := writeFactCheckLoop_nonempty env hw 3 s1 0 0 r0 hloop
    have hrp : runPipeline env (initialWorkflowState req)
        = Except.ok { r0 with
            state := PolisherAgent.run env.polisherClient env.polishGen r0.state } := by
      unfold runPipeline
      rw [hres]
      dsimp only
      rw [hloop]
    have hgc : generate_content env req
        = { content := (PolisherAgent.run env.polisherClient env.polishGen
              r0.state).final_content.getD ""
            status := "success"
            metadata := (PolisherAgent.run env.polisherClient env.polishGen
              r0.state).metadata } := by
      unfold generate_content
      rw [hrp]
    rw [hgc]
    refine ⟨rfl, ?_⟩
    dsimp only
    rw [polisher_run_final_content, Option.getD_some]
    have hselne : (if r0.state.fact_checked_content.getD "" ≠ ""
          ∧ pyStrip (r0.state.fact_checked_content.getD "") ≠ ""
          ∧ r0.state.fact_checked_content.getD "" ≠ "N/A"
        then r0.state.fact_checked_content.getD ""
        else r0.state.draft_content.getD "") ≠ "" := by
      split_ifs with hok
      · exact hok.1
      · exact hne.1
    cases hb : env.polisherClient with
    | false =>
      rw [polishContent_unavailable]
      exact hselne
    | true =>
      cases hg : env.polishGen with
      | error e =>
        rw [polishContent_error]
        exact hselne
      | ok t =>
        rw [polishContent_ok]
        exact hp t hg

/-- Witness for C6's amended theorem: the all-down environment
satisfies both collaborator hypotheses vacuously. -/
theorem success_response_characterization_witness :
    ("t" : String) ≠ "" ∧
    (generate_content envAllDown { prd := "p", topic := "t" }).status = "success" ∧
    (generate_content envAllDown { prd := "p", topic := "t" }).content ≠ "" := by
  have h := success_response_characterization envAllDown { prd := "p", topic := "t" }
    (fun k t ht => by cases ht) (fun t ht => by cases ht)
  exact ⟨by decide, (h.2 (by decide)).1, (h.2 (by decide)).2⟩
